import Mathlib

/-!
# Verification of the Noiasca LED toolkit (BurbSec MeetupBadge firmware)

Shallow embedding of `include/Noiasca_led.h` and
`include/utility/Noiasca_PCF8574.h`.

Conventions of the embedding:
* `millis()` timestamps are `uint32_t`; we model them as `Nat` values below
  `2^32` and model C++ unsigned subtraction `now - previous` by `sub32`.
* `uint8_t` arithmetic (`++`/`--` on brightness and state counters) is
  modelled exactly by `inc8`/`dec8` (wrapping at 256).
* Arduino `random(a, b)` returns a value in `[a, b)`; every routine that
  draws random numbers receives an oracle `o : Nat → Nat` giving the raw
  draws in call order, mapped into the range by `randomIn`/`random0`.
* Hardware writes (`obj.digWrite`, `obj.pwmWrite`) are recorded in a trace
  list `hw`; `digWriteAt i v` records a write to pin index `i` of a
  multi-pin object.
* The state-change callback `cbStateChange` is modelled as registered: the
  `cb` list records the argument of each invocation the C++ code would
  perform when a callback is installed.
-/

/-- Arduino digital level HIGH. -/
def HIGH : Nat := 1

/-- Arduino digital level LOW. -/
def LOW : Nat := 0

/-- C++ `uint32_t` subtraction `now - prev` (both arguments below `2^32`). -/
def sub32 (now prev : Nat) : Nat :=
  (now + 4294967296 - prev) % 4294967296

/-- C++ `uint8_t` increment `x++`. -/
def inc8 (n : Nat) : Nat := (n + 1) % 256

/-- C++ `uint8_t` decrement `x--`. -/
def dec8 (n : Nat) : Nat := (n + 255) % 256

/-- Arduino `random(a, b)`: a value in `[a, b)` derived from the raw draw `r`. -/
def randomIn (r a b : Nat) : Nat := a + r % (b - a)

/-- Arduino `random(n)`: a value in `[0, n)` (0 when `n = 0`). -/
def random0 (r n : Nat) : Nat := if n = 0 then 0 else r % n

/-- A recorded hardware write. -/
inductive HW where
  | digWrite (val : Nat)
  | pwmWrite (val : Nat)
  | digWriteAt (idx val : Nat)
deriving DecidableEq

/-- The operating mode of the `Effect` class (`enum Mode` in the source). -/
inductive Mode where
  | ONOFF
  | BLINK
  | FLICKER
  | FLUORESCENT
  | HEARTBEAT
  | PULSE
  | RHYTHM
  | SMOOTH
deriving DecidableEq

/-- The mutable fields of `Effect` (including those inherited from `LedBase`).
`interval` is the `uint16_t interval[8]` array, kept as a list of length 8. -/
structure EffectState where
  state : Nat
  mode : Mode
  previousMillis : Nat
  previousMillisEffect : Nat
  maxBrightness : Nat
  minBrightness : Nat
  currentBrightness : Nat
  lengthOfPattern : Nat
  interval : List Nat
deriving DecidableEq

/-- Result of one member-function call: the new object state, the hardware
writes performed, and the callback invocations performed (in order). -/
structure StepResult where
  st : EffectState
  hw : List HW
  cb : List Nat
deriving DecidableEq

/-- The freshly constructed `Effect` object: `state = 1`, `mode = ONOFF`,
both timestamps set to `millis()` at construction time `t`, default
brightness bounds and the default `interval[8] = {150, 60, 20, 270}`. -/
def initialEffect (t : Nat) : EffectState where
  state := 1
  mode := Mode.ONOFF
  previousMillis := t
  previousMillisEffect := t
  maxBrightness := 255
  minBrightness := 0
  currentBrightness := 0
  lengthOfPattern := 4
  interval := [150, 60, 20, 270, 0, 0, 0, 0]

/-- `Effect::off()`: force state 0; outside SMOOTH mode also write LOW and
zero the brightness; fire the callback when the state actually changed. -/
def Effect.off (s : EffectState) : StepResult :=
  if s.mode ≠ Mode.SMOOTH then
    { st := { s with
        state := 0
        currentBrightness := 0 }
      hw := [HW.digWrite LOW]
      cb := if s.state ≠ 0 then [0] else [] }
  else
    { st := { s with state := 0 }
      hw := []
      cb := if s.state ≠ 0 then [0] else [] }

/-- `Effect::on(force)`: set state 1 when off (or forced); in ONOFF/PULSE
mode write HIGH and restart the timer from `millis()` (`nowMs`); in
FLUORESCENT mode re-seed the random intervals and glimm; fire the callback
when the state actually changed. -/
def Effect.on (force : Bool) (nowMs : Nat) (o : Nat → Nat) (s : EffectState) : StepResult :=
  let s1 := if s.state = 0 ∨ force = true then { s with state := 1 } else s
  let r : StepResult :=
    match s.mode with
    | Mode.ONOFF =>
        { st := { s1 with previousMillis := nowMs }, hw := [HW.digWrite HIGH], cb := [] }
    | Mode.PULSE =>
        { st := { s1 with previousMillis := nowMs }, hw := [HW.digWrite HIGH], cb := [] }
    | Mode.FLUORESCENT =>
        { st := { s1 with
            currentBrightness := 0
            previousMillis := nowMs
            interval := (s1.interval.set 1 (randomIn (o 0) 50 500)).set 0
                (randomIn (o 1) 500 5000) }
          hw := [HW.pwmWrite 2]
          cb := [] }
    | _ => { st := s1, hw := [], cb := [] }
  { st := r.st, hw := r.hw, cb := if s.state ≠ r.st.state then [r.st.state] else [] }

/-- `Effect::blink(currentMillis)`. -/
def Effect.blink (now : Nat) (s : EffectState) : StepResult :=
  if s.state ≠ 0 then
    if s.state = 2 then
      if s.interval.getD 0 0 ≤ sub32 now s.previousMillis then
        { st := { s with
            state := 1
            previousMillis := now }
          hw := [HW.digWrite LOW]
          cb := [1] }
      else { st := s, hw := [], cb := [] }
    else
      if s.interval.getD 1 0 ≤ sub32 now s.previousMillis then
        { st := { s with
            state := 2
            previousMillis := now }
          hw := [HW.digWrite HIGH]
          cb := [2] }
      else { st := s, hw := [], cb := [] }
  else { st := s, hw := [], cb := [] }

/-- `Effect::flicker(currentMillis)`. -/
def Effect.flicker (o : Nat → Nat) (now : Nat) (s : EffectState) : StepResult :=
  if s.state = 1 then
    if s.interval.getD 0 0 < sub32 now s.previousMillis then
      { st := { s with
          interval := s.interval.set 0 (randomIn (o 1) 20 150)
          previousMillis := now }
        hw := [HW.pwmWrite (random0 (o 0) s.maxBrightness / 10 * 10 + 5)]
        cb := [] }
    else { st := s, hw := [], cb := [] }
  else { st := s, hw := [], cb := [] }

/-- `Effect::fluorescent(currentMillis)`: the two `state == 1` checks run
first (flash timer, then stabilization timer), then the `state == 2`
ramp-up check runs on the resulting state. -/
def Effect.fluorescent (o : Nat → Nat) (now : Nat) (s : EffectState) : StepResult :=
  let a :=
    if s.state = 1 ∧ s.interval.getD 1 0 < sub32 now s.previousMillisEffect then
      if 200 ≤ s.currentBrightness then
        { st := { s with
            currentBrightness := randomIn (o 0) 0 5
            interval := s.interval.set 1 (randomIn (o 1) 400 2000)
            previousMillisEffect := now }
          hw := [HW.pwmWrite (randomIn (o 0) 0 5)]
          cb := ([] : List Nat) }
      else
        { st := { s with
            currentBrightness := randomIn (o 0) 200 255
            interval := s.interval.set 1 (randomIn (o 1) 20 40)
            previousMillisEffect := now }
          hw := [HW.pwmWrite (randomIn (o 0) 200 255)]
          cb := ([] : List Nat) }
    else { st := s, hw := [], cb := [] }
  let b :=
    if s.state = 1 ∧ a.st.interval.getD 0 0 < sub32 now a.st.previousMillis then
      { st := { a.st with
          currentBrightness := 200
          interval := a.st.interval.set 0 100
          previousMillis := now
          state := 2 }
        hw := a.hw ++ [HW.pwmWrite 200]
        cb := a.cb ++ [2] }
    else a
  if b.st.state = 2 ∧ b.st.interval.getD 0 0 ≤ sub32 now b.st.previousMillis then
    if 255 ≤ inc8 b.st.currentBrightness then
      { st := { b.st with
          previousMillis := now
          currentBrightness := inc8 b.st.currentBrightness
          state := 3 }
        hw := b.hw ++ [HW.pwmWrite (inc8 b.st.currentBrightness)]
        cb := b.cb ++ [3] }
    else
      { st := { b.st with
          previousMillis := now
          currentBrightness := inc8 b.st.currentBrightness }
        hw := b.hw ++ [HW.pwmWrite (inc8 b.st.currentBrightness)]
        cb := b.cb }
  else b

/-- `Effect::heartbeat(currentMillis)`. -/
def Effect.heartbeat (now : Nat) (s : EffectState) : StepResult :=
  if s.state ≠ 0 ∧ s.interval.getD 0 0 < sub32 now s.previousMillis then
    if s.state = 1 then
      if s.currentBrightness < s.maxBrightness then
        { st := { s with
            previousMillis := now
            currentBrightness := inc8 s.currentBrightness }
          hw := [HW.pwmWrite (inc8 s.currentBrightness)]
          cb := [] }
      else
        { st := { s with
            previousMillis := now
            state := 2 }
          hw := [HW.pwmWrite s.currentBrightness]
          cb := [] }
    else
      if s.minBrightness < s.currentBrightness then
        { st := { s with
            previousMillis := now
            currentBrightness := dec8 s.currentBrightness }
          hw := [HW.pwmWrite (dec8 s.currentBrightness)]
          cb := [] }
      else
        { st := { s with
            previousMillis := now
            state := 1 }
          hw := [HW.pwmWrite s.currentBrightness]
          cb := [] }
  else { st := s, hw := [], cb := [] }

/-- `Effect::pulse(currentMillis)`: the monoflop. -/
def Effect.pulse (now : Nat) (s : EffectState) : StepResult :=
  if s.state ≠ 0 then
    if s.state = 1 then
      if s.interval.getD 0 0 ≤ sub32 now s.previousMillis then
        { st := { s with state := 0 }, hw := [HW.digWrite LOW], cb := [0] }
      else { st := s, hw := [], cb := [] }
    else { st := s, hw := [], cb := [] }
  else { st := s, hw := [], cb := [] }

/-- `Effect::rhythm(currentMillis)`. -/
def Effect.rhythm (now : Nat) (s : EffectState) : StepResult :=
  if 0 < s.state then
    if s.interval.getD (s.state - 1) 0 < sub32 now s.previousMillis then
      { st := { s with
          state := if s.lengthOfPattern < inc8 s.state then 1 else inc8 s.state
          previousMillis := now }
        hw := [if s.state % 2 ≠ 0 then HW.digWrite LOW else HW.digWrite HIGH]
        cb := [] }
    else { st := s, hw := [], cb := [] }
  else { st := s, hw := [], cb := [] }

/-- `Effect::smooth(currentMillis)`. -/
def Effect.smooth (now : Nat) (s : EffectState) : StepResult :=
  if s.state = 1 ∧ s.currentBrightness < s.maxBrightness ∧
      s.interval.getD 0 0 < sub32 now s.previousMillis then
    { st := { s with
        currentBrightness := inc8 s.currentBrightness
        previousMillis := now }
      hw := [HW.pwmWrite (inc8 s.currentBrightness)]
      cb := [] }
  else if s.state = 1 ∧ s.maxBrightness < s.currentBrightness ∧
      s.interval.getD 1 0 < sub32 now s.previousMillis then
    { st := { s with
        currentBrightness := dec8 s.currentBrightness
        previousMillis := now }
      hw := [HW.pwmWrite (dec8 s.currentBrightness)]
      cb := [] }
  else if s.state = 0 ∧ 0 < s.currentBrightness ∧
      s.interval.getD 1 0 < sub32 now s.previousMillis then
    { st := { s with
        currentBrightness := dec8 s.currentBrightness
        previousMillis := now }
      hw := [HW.pwmWrite (dec8 s.currentBrightness)]
      cb := [] }
  else { st := s, hw := [], cb := [] }

/-- `Effect::update(currentMillis)`: dispatch on the current mode. -/
def Effect.update (o : Nat → Nat) (now : Nat) (s : EffectState) : StepResult :=
  match s.mode with
  | Mode.ONOFF => { st := s, hw := [], cb := [] }
  | Mode.BLINK => Effect.blink now s
  | Mode.FLICKER => Effect.flicker o now s
  | Mode.FLUORESCENT => Effect.fluorescent o now s
  | Mode.HEARTBEAT => Effect.heartbeat now s
  | Mode.PULSE => Effect.pulse now s
  | Mode.RHYTHM => Effect.rhythm now s
  | Mode.SMOOTH => Effect.smooth now s

/-- Iterate `Effect::update` over a list of timestamps, keeping the state. -/
def runUpdates (o : Nat → Nat) (ts : List Nat) (s : EffectState) : EffectState :=
  List.foldl (fun a t => (Effect.update o t a).st) s ts

/-- `Effect::setInterval(i0, i1, i2, i3)` (the 4-argument overload). -/
def Effect.setInterval4 (i0 i1 i2 i3 : Nat) (s : EffectState) : EffectState :=
  { s with
    interval := (((s.interval.set 0 i0).set 1 i1).set 2 i2).set 3 i3
    lengthOfPattern := 4 }

/-- `Effect::setModePulse()`. -/
def Effect.setModePulse (s : EffectState) : EffectState :=
  { s with
    mode := Mode.PULSE
    interval := s.interval.set 0 500
    state := if s.state ≠ 0 then 1 else s.state }

/-- `Effect::setModeHeartbeat()`. -/
def Effect.setModeHeartbeat (s : EffectState) : EffectState :=
  { s with
    mode := Mode.HEARTBEAT
    interval := s.interval.set 0 5
    currentBrightness := 0
    minBrightness := 0
    maxBrightness := 255
    state := if s.state ≠ 0 then 1 else s.state }

/-- `Effect::setModeRhythm()`: ECE 2 default pattern. -/
def Effect.setModeRhythm (s : EffectState) : EffectState :=
  Effect.setInterval4 150 60 20 270 { s with mode := Mode.RHYTHM }

/-- `Effect::setModeSmooth()`. -/
def Effect.setModeSmooth (s : EffectState) : EffectState :=
  { s with
    mode := Mode.SMOOTH
    interval := (s.interval.set 0 25).set 1 15 }

/-- A canonical `Effect` state used to probe the interval comparison of each
mode: brightness bounds at their defaults, both timestamps at `prev`. -/
def probe (m : Mode) (st prev cur : Nat) (iv : List Nat) : EffectState where
  state := st
  mode := m
  previousMillis := prev
  previousMillisEffect := prev
  maxBrightness := 255
  minBrightness := 0
  currentBrightness := cur
  lengthOfPattern := 4
  interval := iv

/-- The all-zero random oracle, for concrete evaluations. -/
def oZero : Nat → Nat := fun _ => 0

/-- The mutable state of the plain `LedBase` base class. -/
structure LedBaseState where
  state : Nat
deriving DecidableEq

/-- `LedBase::on()`: set state 1, fire the callback when the state changed. -/
def LedBase.on (s : LedBaseState) : LedBaseState × List Nat :=
  (⟨1⟩, if s.state ≠ 1 then [1] else [])

/-- `LedBase::off()`: set state 0, fire the callback when the state changed. -/
def LedBase.off (s : LedBaseState) : LedBaseState × List Nat :=
  (⟨0⟩, if s.state ≠ 0 then [0] else [])

/-- The mutable fields of the `Alternating` two-LED choreographer. -/
structure AltState where
  previousMillis : Nat
  onInterval : Nat
  offInterval : Nat
  state : Nat
deriving DecidableEq

/-- Result of one `Alternating` member call. -/
structure AltResult where
  st : AltState
  hw : List HW
  cb : List Nat
deriving DecidableEq

/-- `Alternating::off()`: state 0 and both pins LOW at once. -/
def Alternating.off (s : AltState) : AltResult :=
  { st := { s with state := 0 }
    hw := [HW.digWriteAt 0 LOW, HW.digWriteAt 1 LOW]
    cb := if s.state ≠ 0 then [0] else [] }

/-- `Alternating::update(currentMillis)`: while on, swap the two pins every
interval; while off, write both pins LOW on every single call (the source
marks this unconditional write with a `MISSING tbd` comment). -/
def Alternating.update (now : Nat) (s : AltState) : AltResult :=
  if s.state ≠ 0 then
    if s.state = 1 ∧ s.onInterval ≤ sub32 now s.previousMillis then
      { st := { s with
          previousMillis := now
          state := 2 }
        hw := [HW.digWriteAt 0 LOW, HW.digWriteAt 1 HIGH]
        cb := [2] }
    else if s.state = 2 ∧ s.offInterval ≤ sub32 now s.previousMillis then
      { st := { s with
          previousMillis := now
          state := 1 }
        hw := [HW.digWriteAt 0 HIGH, HW.digWriteAt 1 LOW]
        cb := [1] }
    else { st := s, hw := [], cb := [] }
  else
    { st := s, hw := [HW.digWriteAt 0 LOW, HW.digWriteAt 1 LOW], cb := [] }

/-- One entry of the `Trafficlight` sequence table. -/
structure SeqEntry where
  state : Nat
  interval : Nat
deriving DecidableEq

/-- The mutable fields of `Trafficlight`.  `sequence` is the
`Sequence sequence[8]` array (length 8 by construction).  The state enum is
OFF 0, RED 1, REDYELLOW 2, GREEN 3, YELLOW 4, YELLOWBLINK 5, GREENBLINK 6;
the mode enum is MANUAL 0, AUTOMATIC 1. -/
structure TrafficlightState where
  previousMillis : Nat
  previousMillisBlink : Nat
  onInterval : Nat
  currentBlink : Nat
  currentSequence : Nat
  state : Nat
  mode : Nat
  sequence : List SeqEntry
  noOfSequence : Nat
deriving DecidableEq

/-- A `Trafficlight` as built by the constructor (at time 0): default
members (`onInterval 500`, `state 5`, `mode AUTOMATIC`) and the
constructor-installed sequence table. -/
def Trafficlight.initial : TrafficlightState where
  previousMillis := 0
  previousMillisBlink := 0
  onInterval := 500
  currentBlink := 0
  currentSequence := 0
  state := 5
  mode := 1
  sequence := [⟨1, 5000⟩, ⟨2, 3000⟩, ⟨3, 2500⟩, ⟨4, 3000⟩, ⟨0, 0⟩, ⟨0, 0⟩, ⟨0, 0⟩, ⟨0, 0⟩]
  noOfSequence := 4

/-- `Trafficlight::setSequenceIndex(index, newState, newInterval)`: update
entry `index` and return 0 when `index < 8`, otherwise return 1. -/
def Trafficlight.setSequenceIndex (idx newState newInterval : Nat)
    (s : TrafficlightState) : TrafficlightState × Nat :=
  if idx < 8 then
    ({ s with sequence := s.sequence.set idx ⟨newState, newInterval⟩ }, 0)
  else (s, 1)

/-- `Trafficlight::setSequenceMax(newMax)`: accept only `1 ≤ newMax ≤ 8`. -/
def Trafficlight.setSequenceMax (newMax : Nat)
    (s : TrafficlightState) : TrafficlightState × Nat :=
  if newMax ≤ 8 ∧ 0 < newMax then ({ s with noOfSequence := newMax }, 0)
  else (s, 1)

/-- Result of one `Trafficlight` member call: new state, hardware writes,
`cbSequenceChange` invocations and `cbStateChange` invocations. -/
structure TLResult where
  st : TrafficlightState
  hw : List HW
  cbSeq : List Nat
  cbState : List Nat
deriving DecidableEq

/-- The lamp writes of the `switch` in `Trafficlight::setState`: the faces
OFF/RED/YELLOW/REDYELLOW/GREEN drive all three lamps; the blink faces
(YELLOWBLINK 5, GREENBLINK 6) fall through with no immediate write. -/
def Trafficlight.lampWrites (newState : Nat) : List HW :=
  if newState = 0 then [HW.digWriteAt 0 LOW, HW.digWriteAt 1 LOW, HW.digWriteAt 2 LOW]
  else if newState = 1 then [HW.digWriteAt 0 HIGH, HW.digWriteAt 1 LOW, HW.digWriteAt 2 LOW]
  else if newState = 4 then [HW.digWriteAt 0 LOW, HW.digWriteAt 1 HIGH, HW.digWriteAt 2 LOW]
  else if newState = 2 then [HW.digWriteAt 0 HIGH, HW.digWriteAt 1 HIGH, HW.digWriteAt 2 LOW]
  else if newState = 3 then [HW.digWriteAt 0 LOW, HW.digWriteAt 1 LOW, HW.digWriteAt 2 HIGH]
  else []

/-- `Trafficlight::setState(newState)`: drive the lamps for the new face,
fire `cbStateChange` when the face changed, record the new state. -/
def Trafficlight.setState (newState : Nat) (s : TrafficlightState) : TLResult where
  st := { s with state := newState }
  hw := Trafficlight.lampWrites newState
  cbSeq := []
  cbState := if s.state ≠ newState then [newState] else []

/-- `Trafficlight::off()`: state 0 and all three lamps LOW (no callback). -/
def Trafficlight.off (s : TrafficlightState) : TrafficlightState × List HW :=
  ({ s with state := 0 },
   [HW.digWriteAt 0 LOW, HW.digWriteAt 1 LOW, HW.digWriteAt 2 LOW])

/-- `Trafficlight::update(currentMillis)`: outside MANUAL mode, advance the
sequence (wrapping at `noOfSequence`), fire `cbSequenceChange` and apply
`setState` once the current entry's interval has elapsed; then run the
GREENBLINK and YELLOWBLINK toggles on the resulting state. -/
def Trafficlight.update (now : Nat) (s : TrafficlightState) : TLResult :=
  let a :=
    if s.mode ≠ 0 then
      if (s.sequence.getD s.currentSequence ⟨0, 0⟩).interval ≤ sub32 now s.previousMillis then
        let c2 := if s.noOfSequence ≤ inc8 s.currentSequence then 0 else inc8 s.currentSequence
        let w := Trafficlight.setState (s.sequence.getD c2 ⟨0, 0⟩).state
          { s with previousMillis := now, currentSequence := c2 }
        { st := w.st, hw := w.hw, cbSeq := [c2], cbState := w.cbState }
      else { st := s, hw := [], cbSeq := [], cbState := [] }
    else { st := s, hw := [], cbSeq := [], cbState := [] }
  let b :=
    if a.st.state = 6 ∧ a.st.onInterval ≤ sub32 now a.st.previousMillisBlink then
      { st := { a.st with
          previousMillisBlink := now
          currentBlink := if a.st.currentBlink ≠ 0 then 0 else 1 }
        hw := a.hw ++ [HW.digWriteAt 2 (if a.st.currentBlink ≠ 0 then LOW else HIGH)]
        cbSeq := a.cbSeq
        cbState := a.cbState }
    else a
  if b.st.state = 5 ∧ b.st.onInterval ≤ sub32 now b.st.previousMillisBlink then
    { st := { b.st with
        previousMillisBlink := now
        currentBlink := if b.st.currentBlink ≠ 0 then 0 else 1 }
      hw := b.hw ++ [HW.digWriteAt 1 (if b.st.currentBlink ≠ 0 then LOW else HIGH)]
      cbSeq := b.cbSeq
      cbState := b.cbState }
  else b

/-- The mutable fields of the `Turnsignal` choreographer
(state 0 OFF, 1 LEFT, 2 RIGHT, 3 HAZARD). -/
structure TurnsignalState where
  previousMillis : Nat
  onInterval : Nat
  offInterval : Nat
  current : Nat
  state : Nat
deriving DecidableEq

/-- Result of one `Turnsignal` member call. -/
structure TurnResult where
  st : TurnsignalState
  hw : List HW
deriving DecidableEq

/-- `Turnsignal::off()`: state 0, all three LEDs LOW, callback when the
state changed. -/
def Turnsignal.off (s : TurnsignalState) : TurnsignalState × List HW × List Nat :=
  ({ s with state := 0 },
   [HW.digWriteAt 0 LOW, HW.digWriteAt 1 LOW, HW.digWriteAt 2 LOW],
   if s.state ≠ 0 then [0] else [])

/-- `Turnsignal::update(currentMillis)`: the whole body is guarded by
`if (state)`; while on, alternate the signal LEDs of the current state. -/
def Turnsignal.update (now : Nat) (s : TurnsignalState) : TurnResult :=
  if s.state ≠ 0 then
    if s.current = 0 ∧ s.offInterval ≤ sub32 now s.previousMillis then
      { st := { s with
          previousMillis := now
          current := 1 }
        hw :=
          match s.state with
          | 1 => [HW.digWriteAt 0 HIGH]
          | 2 => [HW.digWriteAt 1 HIGH]
          | 3 => [HW.digWriteAt 0 HIGH, HW.digWriteAt 1 HIGH, HW.digWriteAt 2 HIGH]
          | _ => [] }
    else if s.current = 1 ∧ s.onInterval ≤ sub32 now s.previousMillis then
      { st := { s with
          previousMillis := now
          current := 0 }
        hw := [HW.digWriteAt 0 LOW, HW.digWriteAt 1 LOW, HW.digWriteAt 2 LOW] }
    else { st := s, hw := [] }
  else { st := s, hw := [] }

/-- The mutable fields of the `Bounce5` (Larson scanner) choreographer
(state 0 off, 1 run and on, 2 run but off). -/
structure Bounce5State where
  previousMillis : Nat
  onInterval : Nat
  offInterval : Nat
  current : Nat
  state : Nat
deriving DecidableEq

/-- Result of one `Bounce5` member call. -/
structure Bounce5Result where
  st : Bounce5State
  hw : List HW
deriving DecidableEq

/-- The LED order of `Bounce5::update` (`ledPattern[8]`). -/
def Bounce5.ledPattern : List Nat := [0, 1, 2, 3, 4, 3, 2, 1]

/-- `Bounce5::off()`: state 0, all five LEDs LOW, callback when the state
changed. -/
def Bounce5.off (s : Bounce5State) : Bounce5State × List HW × List Nat :=
  ({ s with state := 0 },
   [HW.digWriteAt 0 LOW, HW.digWriteAt 1 LOW, HW.digWriteAt 2 LOW,
    HW.digWriteAt 3 LOW, HW.digWriteAt 4 LOW],
   if s.state ≠ 0 then [0] else [])

/-- `Bounce5::update(currentMillis)`: while running, alternate between
all-off and lighting the next LED of the bounce pattern; while off
(state 0), write all five LEDs LOW on every single call (the source marks
this unconditional write with a `MISSING: tbd` comment). -/
def Bounce5.update (now : Nat) (s : Bounce5State) : Bounce5Result :=
  if 0 < s.state then
    if s.state = 1 ∧ s.onInterval ≤ sub32 now s.previousMillis then
      { st := { s with
          previousMillis := now
          state := 2 }
        hw := [HW.digWriteAt 0 LOW, HW.digWriteAt 1 LOW, HW.digWriteAt 2 LOW,
          HW.digWriteAt 3 LOW, HW.digWriteAt 4 LOW] }
    else if s.state = 2 ∧ s.offInterval ≤ sub32 now s.previousMillis then
      { st := { s with
          previousMillis := now
          current := if 8 ≤ inc8 s.current then 0 else inc8 s.current
          state := 1 }
        hw := [HW.digWriteAt (Bounce5.ledPattern.getD s.current 0) HIGH] }
    else { st := s, hw := [] }
  else
    { st := s
      hw := [HW.digWriteAt 0 LOW, HW.digWriteAt 1 LOW, HW.digWriteAt 2 LOW,
        HW.digWriteAt 3 LOW, HW.digWriteAt 4 LOW] }

/-- `PCF8574_IF::pwmWrite(pwm)`: threshold to a digital write on the pin
`startPixel + 0` of the expander (`digWrite(val)` forwards to
`digitalWrite(startPixel + 0, val)`). -/
def PCF8574_IF.pwmWrite (startPixel pwm : Nat) : HW :=
  if 127 < pwm then HW.digWriteAt (startPixel + 0) HIGH
  else HW.digWriteAt (startPixel + 0) LOW

/-- `PCF8574_IFGroup::pwmWrite(actual, pwm)`: threshold to a digital write
on expander pin `pin[actual]`. -/
def PCF8574_IFGroup.pwmWrite (pin : List Nat) (actual pwm : Nat) : HW :=
  if 127 < pwm then HW.digWriteAt (pin.getD actual 0) HIGH
  else HW.digWriteAt (pin.getD actual 0) LOW

/-- The fields of the standalone `Heartbeat` class; the source field `end`
is rendered `end_` (Lean keyword). Defaults: `interval 25`, `pwm 0`,
`start 0`, `end 255`. -/
structure HeartbeatState where
  interval : Nat
  previousMillis : Nat
  pwm : Nat
  start : Nat
  end_ : Nat
deriving DecidableEq

/-- A freshly constructed `Heartbeat` object (timestamp `t`). -/
def Heartbeat.initial (t : Nat) : HeartbeatState where
  interval := 25
  previousMillis := t
  pwm := 0
  start := 0
  end_ := 255

/-- `Heartbeat::setMaxBrightness(maxBrightness)`: only accepted when
strictly above the current lower bound `start`. -/
def Heartbeat.setMaxBrightness (v : Nat) (s : HeartbeatState) : HeartbeatState :=
  if s.start < v then { s with end_ := v } else s

/-- `Heartbeat::setMinBrightness(minBrightness)`: only accepted when
strictly below the current upper bound `end`. -/
def Heartbeat.setMinBrightness (v : Nat) (s : HeartbeatState) : HeartbeatState :=
  if v < s.end_ then { s with start := v } else s

/-- Iterating `Effect::update` over timestamps at which nothing happens
leaves the state untouched. -/
theorem runUpdates_fixed (o : Nat → Nat) (ts : List Nat) (s : EffectState)
    (h : ∀ t ∈ ts, Effect.update o t s = ⟨s, [], []⟩) : runUpdates o ts s = s := by
  induction ts with
  | nil => rfl
  | cons t ts ih =>
      have ht := h t (List.mem_cons_self t ts)
      have : runUpdates o (t :: ts) s = runUpdates o ts (Effect.update o t s).st := rfl
      rw [this, ht]
      exact ih (fun u hu => h u (List.mem_cons_of_mem t hu))

/-- C6: 32-bit wrap-safe elapsed-time detection.  If the true elapsed time
is `d < 2^32` and both timestamps are reduced modulo `2^32`, the unsigned
subtraction `now - previousTime` (our `sub32`) recovers exactly `d`; in
particular `previous = 4294967290`, `now = 5` yields 11 elapsed ms, so a
10 ms interval that expires across the wrap boundary still fires (shown on
the PULSE update routine). -/
theorem wrap_safe_elapsed (prev d : Nat) (hp : prev < 4294967296) (hd : d < 4294967296) :
    sub32 ((prev + d) % 4294967296) prev = d ∧
    sub32 5 4294967290 = 11 ∧
    (Effect.update oZero 5 (probe Mode.PULSE 1 4294967290 0 [10, 0, 0, 0, 0, 0, 0, 0])).hw
      = [HW.digWrite LOW] := by
  refine ⟨?_, by decide, by decide⟩
  unfold sub32
  omega

/-- Witness for C6 at `prev = 4294967290`, `d = 11`. -/
theorem wrap_safe_elapsed_witness :
    sub32 ((4294967290 + 11) % 4294967296) 4294967290 = 11 :=
  (wrap_safe_elapsed 4294967290 11 (by decide) (by decide)).1

/-- C8: `Trafficlight::setSequenceIndex` accepts exactly the indices below
the capacity 8, updating exactly the addressed entry and returning 0, and
returns 1 leaving everything unchanged otherwise; `setSequenceMax` accepts
exactly `1 ≤ newMax ≤ 8` and returns 1 with no state change otherwise. -/
theorem trafficlight_sequence_bounds (s : TrafficlightState) (idx st itv m : Nat)
    (hlen : s.sequence.length = 8) :
    (idx < 8 →
      (Trafficlight.setSequenceIndex idx st itv s).2 = 0 ∧
      (Trafficlight.setSequenceIndex idx st itv s).1.noOfSequence = s.noOfSequence ∧
      (Trafficlight.setSequenceIndex idx st itv s).1.sequence.getD idx ⟨0, 0⟩ = ⟨st, itv⟩ ∧
      (∀ j, j ≠ idx →
        (Trafficlight.setSequenceIndex idx st itv s).1.sequence.getD j ⟨0, 0⟩
          = s.sequence.getD j ⟨0, 0⟩)) ∧
    (8 ≤ idx → Trafficlight.setSequenceIndex idx st itv s = (s, 1)) ∧
    (1 ≤ m → m ≤ 8 →
      (Trafficlight.setSequenceMax m s).2 = 0 ∧
      (Trafficlight.setSequenceMax m s).1.noOfSequence = m ∧
      (Trafficlight.setSequenceMax m s).1.sequence = s.sequence) ∧
    ((m = 0 ∨ 8 < m) → Trafficlight.setSequenceMax m s = (s, 1)) := by
  unfold Trafficlight.setSequenceIndex Trafficlight.setSequenceMax
  refine ⟨?_, ?_, ?_, ?_⟩
  · intro hidx
    rw [if_pos hidx]
    refine ⟨rfl, rfl, ?_, ?_⟩
    · rw [List.getD_eq_getElem _ _ (by simp [hlen]; omega)]
      simp [List.getElem_set, hlen]
    · intro j hj
      by_cases hjl : j < 8
      · rw [List.getD_eq_getElem _ _ (by simp [hlen]; omega),
          List.getD_eq_getElem _ _ (by omega)]
        simp [List.getElem_set, hj.symm]
      · rw [List.getD_eq_default _ _ (by simp [hlen]; omega),
          List.getD_eq_default _ _ (by omega)]
  · intro hidx
    rw [if_neg (by omega)]
  · intro h1 h2
    rw [if_pos ⟨h2, h1⟩]
    exact ⟨rfl, rfl, rfl⟩
  · intro hm
    rw [if_neg (by omega)]

/-- Witness for C8 on the constructor-installed sequence table. -/
theorem trafficlight_sequence_bounds_witness :
    (Trafficlight.setSequenceIndex 2 6 2500 Trafficlight.initial).2 = 0 ∧
    (Trafficlight.setSequenceIndex 2 6 2500 Trafficlight.initial).1.noOfSequence
      = Trafficlight.initial.noOfSequence ∧
    (Trafficlight.setSequenceIndex 2 6 2500 Trafficlight.initial).1.sequence.getD 2 ⟨0, 0⟩
      = ⟨6, 2500⟩ :=
  have h := (trafficlight_sequence_bounds Trafficlight.initial 2 6 2500 3 (by decide)).1
    (by decide)
  ⟨h.1, h.2.1, h.2.2.1⟩

/-- C9: the binary-only PCF8574 adapters threshold `pwmWrite` levels: a
level of 128 or above becomes a digital HIGH on the underlying expander
pin, a level of 127 or below becomes a digital LOW, for both the
single-pin interface and the pin-group interface. -/
theorem pcf8574_pwm_threshold (startPixel actual pwm : Nat) (pin : List Nat)
    (hp : pwm ≤ 255) :
    (128 ≤ pwm → PCF8574_IF.pwmWrite startPixel pwm = HW.digWriteAt (startPixel + 0) HIGH) ∧
    (pwm ≤ 127 → PCF8574_IF.pwmWrite startPixel pwm = HW.digWriteAt (startPixel + 0) LOW) ∧
    (128 ≤ pwm →
      PCF8574_IFGroup.pwmWrite pin actual pwm = HW.digWriteAt (pin.getD actual 0) HIGH) ∧
    (pwm ≤ 127 →
      PCF8574_IFGroup.pwmWrite pin actual pwm = HW.digWriteAt (pin.getD actual 0) LOW) := by
  unfold PCF8574_IF.pwmWrite PCF8574_IFGroup.pwmWrite
  refine ⟨fun h => ?_, fun h => ?_, fun h => ?_, fun h => ?_⟩
  · rw [if_pos (by omega)]
  · rw [if_neg (by omega)]
  · rw [if_pos (by omega)]
  · rw [if_neg (by omega)]

/-- Witness for C9 at levels 128 and 127 on expander pin 3. -/
theorem pcf8574_pwm_threshold_witness :
    PCF8574_IF.pwmWrite 3 128 = HW.digWriteAt (3 + 0) HIGH ∧
    PCF8574_IF.pwmWrite 3 127 = HW.digWriteAt (3 + 0) LOW :=
  ⟨(pcf8574_pwm_threshold 3 0 128 [] (by decide)).1 (by decide),
   (pcf8574_pwm_threshold 3 0 127 [] (by decide)).2.1 (by decide)⟩

/-- C10: the standalone `Heartbeat` class keeps `start < end` (initially
`0 < 255`): `setMaxBrightness` moves the upper bound only when the new
value is strictly above the lower bound and otherwise changes nothing;
`setMinBrightness` moves the lower bound only when the new value is
strictly below the upper bound and otherwise changes nothing. -/
theorem heartbeat_class_bounds (s : HeartbeatState) (v : Nat) (h : s.start < s.end_) :
    (Heartbeat.setMaxBrightness v s).start < (Heartbeat.setMaxBrightness v s).end_ ∧
    (s.start < v → Heartbeat.setMaxBrightness v s = { s with end_ := v }) ∧
    (¬s.start < v → Heartbeat.setMaxBrightness v s = s) ∧
    (Heartbeat.setMinBrightness v s).start < (Heartbeat.setMinBrightness v s).end_ ∧
    (v < s.end_ → Heartbeat.setMinBrightness v s = { s with start := v }) ∧
    (¬v < s.end_ → Heartbeat.setMinBrightness v s = s) ∧
    (Heartbeat.initial 0).start < (Heartbeat.initial 0).end_ := by
  unfold Heartbeat.setMaxBrightness Heartbeat.setMinBrightness
  refine ⟨?_, fun h1 => ?_, fun h1 => ?_, ?_, fun h2 => ?_, fun h2 => ?_, by decide⟩
  · split_ifs with h1
    · simp
      omega
    · exact h
  · rw [if_pos h1]
  · rw [if_neg h1]
  · split_ifs with h2
    · simp
      omega
    · exact h
  · rw [if_pos h2]
  · rw [if_neg h2]

/-- Witness for C10 on a freshly constructed `Heartbeat` with `v = 100`. -/
theorem heartbeat_class_bounds_witness :
    (Heartbeat.setMaxBrightness 100 (Heartbeat.initial 0)).start <
      (Heartbeat.setMaxBrightness 100 (Heartbeat.initial 0)).end_ :=
  (heartbeat_class_bounds (Heartbeat.initial 0) 100 (by decide)).1

/-- C2: with a registered state-change callback, a pair of identical
`on()` calls (starting from off) fires the callback exactly once — on the
first call, with the new state — and the repeated call fires nothing; the
same holds for repeated `off()` calls from an on state, both for the
`Effect` engine and for the plain `LedBase` implementation. -/
theorem callback_once_per_state_change (s : EffectState) (b : LedBaseState)
    (o1 o2 : Nat → Nat) (t1 t2 : Nat) (h0 : s.state = 0) (hb : b.state = 0) :
    (Effect.on false t1 o1 s).cb = [1] ∧
    (Effect.on false t1 o1 s).st.state = 1 ∧
    (Effect.on false t2 o2 (Effect.on false t1 o1 s).st).cb = [] ∧
    (∀ s2 : EffectState, s2.state ≠ 0 →
      (Effect.off s2).cb = [0] ∧ (Effect.off (Effect.off s2).st).cb = []) ∧
    (LedBase.on b).2 = [1] ∧
    (LedBase.on (LedBase.on b).1).2 = [] ∧
    (∀ b2 : LedBaseState, b2.state ≠ 0 →
      (LedBase.off b2).2 = [0] ∧ (LedBase.off (LedBase.off b2).1).2 = []) := by
  obtain ⟨st, m, pm, pme, mx, mn, cur, L, iv⟩ := s
  simp only at h0
  subst h0
  refine ⟨?_, ?_, ?_, ?_, ?_, ?_, ?_⟩
  · cases m <;> simp [Effect.on]
  · cases m <;> simp [Effect.on]
  · cases m <;> simp [Effect.on]
  · intro s2 hs2
    constructor
    · unfold Effect.off
      split_ifs <;> simp [hs2]
    · unfold Effect.off
      split_ifs <;> simp_all
  · simp [LedBase.on, hb]
  · simp [LedBase.on]
  · intro b2 hb2
    exact ⟨by simp [LedBase.off, hb2], by simp [LedBase.off]⟩

/-- The dispatcher runs `Effect::pulse` in PULSE mode. -/
theorem update_eq_pulse (o : Nat → Nat) (t : Nat) (s : EffectState)
    (hm : s.mode = Mode.PULSE) : Effect.update o t s = Effect.pulse t s := by
  unfold Effect.update
  rw [hm]

/-- The dispatcher runs `Effect::heartbeat` in HEARTBEAT mode. -/
theorem update_eq_heartbeat (o : Nat → Nat) (t : Nat) (s : EffectState)
    (hm : s.mode = Mode.HEARTBEAT) : Effect.update o t s = Effect.heartbeat t s := by
  unfold Effect.update
  rw [hm]

/-- The dispatcher runs `Effect::rhythm` in RHYTHM mode. -/
theorem update_eq_rhythm (o : Nat → Nat) (t : Nat) (s : EffectState)
    (hm : s.mode = Mode.RHYTHM) : Effect.update o t s = Effect.rhythm t s := by
  unfold Effect.update
  rw [hm]

/-- The dispatcher runs `Effect::smooth` in SMOOTH mode. -/
theorem update_eq_smooth (o : Nat → Nat) (t : Nat) (s : EffectState)
    (hm : s.mode = Mode.SMOOTH) : Effect.update o t s = Effect.smooth t s := by
  unfold Effect.update
  rw [hm]

/-- C1: the PULSE monoflop.  `on()` drives the sink HIGH immediately and
records its timestamp; every `update(now)` before `onInterval`
(`interval[0]`) ms have elapsed is a complete no-op (the sink stays HIGH);
once `now - tOn ≥ interval[0]` the update writes LOW, sets state 0 and
fires the callback with 0; with state 0 every later update does nothing
until the next `on()`; and a second `on()` restarts the timer from its own
timestamp. -/
theorem pulse_monoflop (s : EffectState) (o o2 : Nat → Nat) (tOn tOn2 now now2 : Nat)
    (hm : s.mode = Mode.PULSE) (hs : s.state ≤ 1) :
    (Effect.on false tOn o s).hw = [HW.digWrite HIGH] ∧
    (Effect.on false tOn o s).st.state = 1 ∧
    (Effect.on false tOn o s).st.previousMillis = tOn ∧
    (Effect.on false tOn o s).st.mode = Mode.PULSE ∧
    (Effect.on false tOn o s).st.interval = s.interval ∧
    (∀ ts : List Nat, (∀ t ∈ ts, sub32 t tOn < s.interval.getD 0 0) →
      runUpdates o2 ts (Effect.on false tOn o s).st = (Effect.on false tOn o s).st) ∧
    (s.interval.getD 0 0 ≤ sub32 now tOn →
      (Effect.update o2 now (Effect.on false tOn o s).st).hw = [HW.digWrite LOW] ∧
      (Effect.update o2 now (Effect.on false tOn o s).st).st.state = 0 ∧
      (Effect.update o2 now (Effect.on false tOn o s).st).cb = [0]) ∧
    (∀ s2 : EffectState, s2.mode = Mode.PULSE → s2.state = 0 →
      Effect.update o2 now2 s2 = ⟨s2, [], []⟩) ∧
    (Effect.on false tOn2 o2 (Effect.on false tOn o s).st).st.previousMillis = tOn2 := by
  have idle : ∀ s2 : EffectState, s2.mode = Mode.PULSE → s2.state = 0 →
      ∀ t, Effect.update o2 t s2 = ⟨s2, [], []⟩ := by
    intro s2 h2m h2s t
    rw [update_eq_pulse o2 t s2 h2m]
    unfold Effect.pulse
    rw [if_neg (by simp [h2s])]
  obtain ⟨st, m, pm, pme, mx, mn, cur, L, iv⟩ := s
  simp only at hm hs
  subst hm
  have hOn : (Effect.on false tOn o ⟨st, Mode.PULSE, pm, pme, mx, mn, cur, L, iv⟩).st
      = ⟨1, Mode.PULSE, tOn, pme, mx, mn, cur, L, iv⟩ := by
    have hst : st = 0 ∨ st = 1 := by omega
    rcases hst with h | h <;> subst h <;> simp [Effect.on]
  have hHw : (Effect.on false tOn o ⟨st, Mode.PULSE, pm, pme, mx, mn, cur, L, iv⟩).hw
      = [HW.digWrite HIGH] := by
    have hst : st = 0 ∨ st = 1 := by omega
    rcases hst with h | h <;> subst h <;> simp [Effect.on]
  refine ⟨hHw, by rw [hOn], by rw [hOn], by rw [hOn], by rw [hOn], ?_, ?_, ?_, by rw [hOn]; simp [Effect.on]⟩
  · intro ts hts
    rw [hOn]
    apply runUpdates_fixed
    intro t ht
    rw [update_eq_pulse o2 t _ rfl]
    unfold Effect.pulse
    rw [if_pos (by simp), if_pos rfl, if_neg (by simpa using Nat.not_le_of_lt (hts t ht))]
  · intro hle
    rw [hOn, update_eq_pulse o2 now _ rfl]
    unfold Effect.pulse
    rw [if_pos (by simp), if_pos rfl, if_pos (by simpa using hle)]
    exact ⟨rfl, rfl, rfl⟩
  · intro s2 h2m h2s
    exact idle s2 h2m h2s now2

/-- Witness for C1: a pulse switched on at 100 ms with the default 500 ms
interval expires at 700 ms with a LOW write. -/
theorem pulse_monoflop_witness :
    (Effect.update oZero 700
      (Effect.on false 100 oZero (Effect.setModePulse (Effect.off (initialEffect 0)).st)).st).hw
      = [HW.digWrite LOW] :=
  ((pulse_monoflop (Effect.setModePulse (Effect.off (initialEffect 0)).st) oZero oZero
      100 0 700 0 (by decide) (by decide)).2.2.2.2.2.2.1 (by decide)).1

/-- C3 counterexample: in HEARTBEAT mode (default 5 ms interval) an update
whose elapsed time equals the interval exactly (`sub32 5 0 = 5 ≥ 5`) fires
no transition at all — the comparison is the strict `>`, not the claimed
`>=`. -/
theorem interval_threshold_counterexample :
    (probe Mode.HEARTBEAT 1 0 0 [5, 0, 0, 0, 0, 0, 0, 0]).interval.getD 0 0 ≤ sub32 5 0 ∧
    Effect.update oZero 5 (probe Mode.HEARTBEAT 1 0 0 [5, 0, 0, 0, 0, 0, 0, 0])
      = ⟨probe Mode.HEARTBEAT 1 0 0 [5, 0, 0, 0, 0, 0, 0, 0], [], []⟩ := by
  decide

/-- C3 (amended): the elapsed-time tests differ by mode.  BLINK and PULSE
(and the FLUORESCENT ramp-up phase) fire exactly when
`now - previousTime >= interval`; FLICKER, HEARTBEAT, RHYTHM and SMOOTH
fire exactly when `now - previousTime > interval` (strictly).  All of them
use the wrap-safe unsigned subtraction `sub32`. -/
theorem interval_threshold_semantics (prev now itv : Nat) (o : Nat → Nat) :
    ((Effect.update o now (probe Mode.BLINK 1 prev 0 [500, itv, 0, 0, 0, 0, 0, 0])).hw ≠ []
      ↔ itv ≤ sub32 now prev) ∧
    ((Effect.update o now (probe Mode.PULSE 1 prev 0 [itv, 0, 0, 0, 0, 0, 0, 0])).hw ≠ []
      ↔ itv ≤ sub32 now prev) ∧
    ((Effect.update o now (probe Mode.FLUORESCENT 2 prev 0 [itv, 9, 0, 0, 0, 0, 0, 0])).hw ≠ []
      ↔ itv ≤ sub32 now prev) ∧
    ((Effect.update o now (probe Mode.FLICKER 1 prev 0 [itv, 0, 0, 0, 0, 0, 0, 0])).hw ≠ []
      ↔ itv < sub32 now prev) ∧
    ((Effect.update o now (probe Mode.HEARTBEAT 1 prev 0 [itv, 0, 0, 0, 0, 0, 0, 0])).hw ≠ []
      ↔ itv < sub32 now prev) ∧
    ((Effect.update o now (probe Mode.RHYTHM 1 prev 0 [itv, 0, 0, 0, 0, 0, 0, 0])).hw ≠ []
      ↔ itv < sub32 now prev) ∧
    ((Effect.update o now (probe Mode.SMOOTH 1 prev 0 [itv, 15, 0, 0, 0, 0, 0, 0])).hw ≠ []
      ↔ itv < sub32 now prev) := by
  refine ⟨?_, ?_, ?_, ?_, ?_, ?_, ?_⟩ <;>
    simp only [Effect.update, probe, Effect.blink, Effect.pulse, Effect.fluorescent,
      Effect.flicker, Effect.heartbeat, Effect.rhythm, Effect.smooth] <;>
    split_ifs <;> simp_all

/-- C5: RHYTHM phase playback.  With a pattern of length `L` and a phase
(state) in `1..L`, the phase stays inside `1..L`; before the phase interval
`interval[state-1]` has strictly elapsed nothing happens; at the end of a
phase the engine writes LOW for odd phases (which are ON) and HIGH for even
phases, advances the phase, wrapping from `L` back to 1, without firing the
callback.  For the default ECE-2 pattern [150, 60, 20, 270] the phase index
returns to its start after one full cycle and the cumulative HIGH time per
cycle is `interval[0] + interval[2] = 150 + 20 = 170` ms. -/
theorem rhythm_phase_cycle (s : EffectState) (o : Nat → Nat) (now : Nat)
    (hm : s.mode = Mode.RHYTHM)
    (hL : s.lengthOfPattern = 2 ∨ s.lengthOfPattern = 4 ∨ s.lengthOfPattern = 6 ∨
      s.lengthOfPattern = 8)
    (hlo : 1 ≤ s.state) (hhi : s.state ≤ s.lengthOfPattern) :
    (1 ≤ (Effect.update o now s).st.state ∧
      (Effect.update o now s).st.state ≤ s.lengthOfPattern) ∧
    (sub32 now s.previousMillis ≤ s.interval.getD (s.state - 1) 0 →
      Effect.update o now s = ⟨s, [], []⟩) ∧
    (s.interval.getD (s.state - 1) 0 < sub32 now s.previousMillis →
      (Effect.update o now s).hw =
        [if s.state % 2 ≠ 0 then HW.digWrite LOW else HW.digWrite HIGH] ∧
      (Effect.update o now s).st.state =
        (if s.state = s.lengthOfPattern then 1 else s.state + 1) ∧
      (Effect.update o now s).st.previousMillis = now ∧
      (Effect.update o now s).cb = []) ∧
    runUpdates oZero [151, 212, 233, 504] (Effect.setModeRhythm (initialEffect 0)) =
      { Effect.setModeRhythm (initialEffect 0) with previousMillis := 504 } ∧
    (Effect.setModeRhythm (initialEffect 0)).interval.getD 0 0 +
      (Effect.setModeRhythm (initialEffect 0)).interval.getD 2 0 = 170 := by
  rw [update_eq_rhythm o now s hm]
  unfold Effect.rhythm
  rw [if_pos (show 0 < s.state by omega)]
  have h8 : inc8 s.state = s.state + 1 := by
    unfold inc8
    omega
  refine ⟨?_, ?_, ?_, by decide, by decide⟩
  · split_ifs <;> simp [h8] <;> omega
  · intro hle
    rw [if_neg (by omega)]
  · intro hfire
    rw [if_pos hfire]
    refine ⟨rfl, ?_, rfl, rfl⟩
    simp [h8]
    split_ifs <;> omega

/-- Witness for C5: the default rhythm at phase 1 advances to phase 2 with
a LOW write once 151 ms have elapsed. -/
theorem rhythm_phase_cycle_witness :
    (Effect.update oZero 151 (Effect.setModeRhythm (initialEffect 0))).hw =
      [if (Effect.setModeRhythm (initialEffect 0)).state % 2 ≠ 0
        then HW.digWrite LOW else HW.digWrite HIGH] :=
  ((rhythm_phase_cycle (Effect.setModeRhythm (initialEffect 0)) oZero 151
      (by decide) (by decide) (by decide) (by decide)).2.2.1 (by decide)).1

/-- C7 counterexample: `off()` does not halt hardware writes everywhere.
A SMOOTH-mode effect at brightness 5 switched off still performs a pwm
write (dimming 5 → 4) on the next update once the down-interval has
elapsed; a `Bounce5` switched off writes all five LEDs LOW on the very
next update; and an AUTOMATIC `Trafficlight` switched off resumes
sequencing — at 5001 ms it advances past the 5000 ms RED entry and
re-lights the lamps (REDYELLOW). -/
theorem off_halts_writes_counterexample :
    (Effect.off (Effect.setModeSmooth { initialEffect 0 with currentBrightness := 5 })).st.state
      = 0 ∧
    (Effect.update oZero 16
        (Effect.off (Effect.setModeSmooth
          { initialEffect 0 with currentBrightness := 5 })).st).hw
      = [HW.pwmWrite 4] ∧
    (Bounce5.off ⟨0, 200, 20, 0, 2⟩).1.state = 0 ∧
    (Bounce5.update 1 (Bounce5.off ⟨0, 200, 20, 0, 2⟩).1).hw
      = [HW.digWriteAt 0 LOW, HW.digWriteAt 1 LOW, HW.digWriteAt 2 LOW,
        HW.digWriteAt 3 LOW, HW.digWriteAt 4 LOW] ∧
    (Trafficlight.off Trafficlight.initial).1.state = 0 ∧
    (Trafficlight.update 5001 (Trafficlight.off Trafficlight.initial).1).hw
      = [HW.digWriteAt 0 HIGH, HW.digWriteAt 1 HIGH, HW.digWriteAt 2 LOW] := by
  decide

/-- C7 (amended): after `off()` (state 0), an `Effect` in any mode other
than SMOOTH performs no hardware write on any later update, and the
`Turnsignal` choreographer — whose whole update body is guarded by
`if (state)` — performs none either; but in SMOOTH mode updates keep
issuing one pwm write per elapsed down-interval, decrementing the
brightness until it reaches 0; the `Alternating` and `Bounce5`
choreographers write LOW to all of their pins (two resp. five) on every
single update while switched off; and a `Trafficlight` left in AUTOMATIC
mode resumes sequencing after `off()`, re-lighting lamps once the current
sequence interval elapses. -/
theorem off_halts_writes (s s2 : EffectState) (a : AltState) (t : TurnsignalState)
    (b : Bounce5State) (o : Nat → Nat) (now : Nat)
    (h0 : s.state = 0) (hns : s.mode ≠ Mode.SMOOTH)
    (h2m : s2.mode = Mode.SMOOTH) (h2s : s2.state = 0) (ha : a.state = 0)
    (hb5 : b.state = 0) :
    Effect.update o now s = ⟨s, [], []⟩ ∧
    (s2.currentBrightness = 0 → Effect.update o now s2 = ⟨s2, [], []⟩) ∧
    (0 < s2.currentBrightness → s2.interval.getD 1 0 < sub32 now s2.previousMillis →
      (Effect.update o now s2).hw = [HW.pwmWrite (dec8 s2.currentBrightness)] ∧
      (Effect.update o now s2).st.currentBrightness = dec8 s2.currentBrightness) ∧
    (Turnsignal.off t).1.state = 0 ∧
    Turnsignal.update now (Turnsignal.off t).1 = ⟨(Turnsignal.off t).1, []⟩ ∧
    (Alternating.update now a).hw = [HW.digWriteAt 0 LOW, HW.digWriteAt 1 LOW] ∧
    (Bounce5.update now b).st = b ∧
    (Bounce5.update now b).hw = [HW.digWriteAt 0 LOW, HW.digWriteAt 1 LOW,
      HW.digWriteAt 2 LOW, HW.digWriteAt 3 LOW, HW.digWriteAt 4 LOW] ∧
    (Trafficlight.off Trafficlight.initial).1.state = 0 ∧
    (Trafficlight.update 5001 (Trafficlight.off Trafficlight.initial).1).hw
      = [HW.digWriteAt 0 HIGH, HW.digWriteAt 1 HIGH, HW.digWriteAt 2 LOW] := by
  refine ⟨?_, ?_, ?_, rfl, ?_, ?_, ?_, ?_, by decide, by decide⟩
  · obtain ⟨st, m, pm, pme, mx, mn, cur, L, iv⟩ := s
    simp only at h0 hns
    subst h0
    cases m <;>
      simp [Effect.update, Effect.blink, Effect.flicker, Effect.fluorescent,
        Effect.heartbeat, Effect.pulse, Effect.rhythm, Effect.smooth] at hns ⊢
  · intro hb
    rw [update_eq_smooth o now s2 h2m]
    unfold Effect.smooth
    rw [if_neg (by omega), if_neg (by omega), if_neg (by omega)]
  · intro hb hint
    rw [update_eq_smooth o now s2 h2m]
    unfold Effect.smooth
    rw [if_neg (by omega), if_neg (by omega), if_pos ⟨h2s, hb, hint⟩]
    exact ⟨rfl, rfl⟩
  · unfold Turnsignal.update
    rw [if_neg (by simp [Turnsignal.off])]
  · unfold Alternating.update
    rw [if_neg (by simp [ha])]
  · unfold Bounce5.update
    rw [if_neg (by omega)]
  · unfold Bounce5.update
    rw [if_neg (by omega)]

/-- Witness for C7: a blink-mode effect switched off does nothing on
update; the quantified choreographer facts are instantiated alongside. -/
theorem off_halts_writes_witness :
    Effect.update oZero 9999 (Effect.off (initialEffect 0)).st
      = ⟨(Effect.off (initialEffect 0)).st, [], []⟩ :=
  (off_halts_writes (Effect.off (initialEffect 0)).st
    (Effect.off (Effect.setModeSmooth (initialEffect 0))).st
    ⟨0, 500, 500, 0⟩ ⟨0, 500, 500, 0, 0⟩ ⟨0, 200, 20, 0, 0⟩ oZero 9999
    (by decide) (by decide) (by decide) (by decide) (by decide) (by decide)).1

/-- One HEARTBEAT update preserves the direction/brightness invariant:
mode and bounds unchanged, state stays in {1, 2}, brightness stays inside
the bounds, and no callback fires. -/
theorem heartbeat_step (s : EffectState) (o : Nat → Nat) (now : Nat)
    (hm : s.mode = Mode.HEARTBEAT) (hst : s.state = 1 ∨ s.state = 2)
    (h1 : s.minBrightness ≤ s.currentBrightness)
    (h2 : s.currentBrightness ≤ s.maxBrightness) (h3 : s.maxBrightness ≤ 255) :
    (Effect.update o now s).st.mode = Mode.HEARTBEAT ∧
    ((Effect.update o now s).st.state = 1 ∨ (Effect.update o now s).st.state = 2) ∧
    (Effect.update o now s).st.minBrightness = s.minBrightness ∧
    (Effect.update o now s).st.maxBrightness = s.maxBrightness ∧
    s.minBrightness ≤ (Effect.update o now s).st.currentBrightness ∧
    (Effect.update o now s).st.currentBrightness ≤ s.maxBrightness ∧
    (Effect.update o now s).cb = [] := by
  obtain ⟨st, m, pm, pme, mx, mn, cur, L, iv⟩ := s
  simp only at hm hst h1 h2 h3
  subst hm
  rw [update_eq_heartbeat o now _ rfl]
  unfold Effect.heartbeat
  split_ifs <;> simp_all [inc8, dec8] <;> omega

/-- Iterated HEARTBEAT updates keep the brightness within the (unchanged)
bounds. -/
theorem heartbeat_run_inv (o : Nat → Nat) (ts : List Nat) (s : EffectState)
    (hm : s.mode = Mode.HEARTBEAT) (hst : s.state = 1 ∨ s.state = 2)
    (h1 : s.minBrightness ≤ s.currentBrightness)
    (h2 : s.currentBrightness ≤ s.maxBrightness) (h3 : s.maxBrightness ≤ 255) :
    (runUpdates o ts s).minBrightness = s.minBrightness ∧
    (runUpdates o ts s).maxBrightness = s.maxBrightness ∧
    (runUpdates o ts s).minBrightness ≤ (runUpdates o ts s).currentBrightness ∧
    (runUpdates o ts s).currentBrightness ≤ (runUpdates o ts s).maxBrightness := by
  induction ts generalizing s with
  | nil => exact ⟨rfl, rfl, h1, h2⟩
  | cons t ts ih =>
      obtain ⟨sm, sst, smin, smax, sl, su, -⟩ := heartbeat_step s o t hm hst h1 h2 h3
      have hcons : runUpdates o (t :: ts) s = runUpdates o ts (Effect.update o t s).st := rfl
      rw [hcons]
      obtain ⟨rmin, rmax, rl, ru⟩ := ih (Effect.update o t s).st sm sst
        (by rw [smin]; exact sl) (by rw [smax]; exact su) (by rw [smax]; exact h3)
      exact ⟨by rw [rmin, smin], by rw [rmax, smax], rl, ru⟩

/-- C4: the HEARTBEAT triangle wave.  Starting with
`minBrightness ≤ currentBrightness ≤ maxBrightness` and direction state 1
or 2, every sequence of updates keeps the brightness inside the bounds;
each elapsed step (strictly more than `interval[0]` ms) either moves the
brightness by exactly 1 toward the current direction's bound or, at a
bound, flips the direction between states 1 and 2 without moving; before
the interval has elapsed nothing happens; and no state-change callback is
ever fired by these steps. -/
theorem heartbeat_triangle_bounds (s : EffectState) (o : Nat → Nat)
    (hm : s.mode = Mode.HEARTBEAT) (hst : s.state = 1 ∨ s.state = 2)
    (h1 : s.minBrightness ≤ s.currentBrightness)
    (h2 : s.currentBrightness ≤ s.maxBrightness) (h3 : s.maxBrightness ≤ 255) :
    (∀ ts : List Nat,
      s.minBrightness ≤ (runUpdates o ts s).currentBrightness ∧
      (runUpdates o ts s).currentBrightness ≤ s.maxBrightness) ∧
    (∀ now, (Effect.update o now s).cb = []) ∧
    (∀ now, s.interval.getD 0 0 < sub32 now s.previousMillis →
      ((s.state = 1 ∧ s.currentBrightness < s.maxBrightness ∧
          (Effect.update o now s).st.currentBrightness = s.currentBrightness + 1 ∧
          (Effect.update o now s).st.state = 1) ∨
       (s.state = 1 ∧ s.currentBrightness = s.maxBrightness ∧
          (Effect.update o now s).st.currentBrightness = s.currentBrightness ∧
          (Effect.update o now s).st.state = 2) ∨
       (s.state = 2 ∧ s.minBrightness < s.currentBrightness ∧
          (Effect.update o now s).st.currentBrightness + 1 = s.currentBrightness ∧
          (Effect.update o now s).st.state = 2) ∨
       (s.state = 2 ∧ s.currentBrightness = s.minBrightness ∧
          (Effect.update o now s).st.currentBrightness = s.currentBrightness ∧
          (Effect.update o now s).st.state = 1))) ∧
    (∀ now, sub32 now s.previousMillis ≤ s.interval.getD 0 0 →
      Effect.update o now s = ⟨s, [], []⟩) := by
  refine ⟨?_, ?_, ?_, ?_⟩
  · intro ts
    obtain ⟨rmin, rmax, rl, ru⟩ := heartbeat_run_inv o ts s hm hst h1 h2 h3
    exact ⟨by rw [← rmin]; exact rl, by rw [← rmax]; exact ru⟩
  · intro now
    exact (heartbeat_step s o now hm hst h1 h2 h3).2.2.2.2.2.2
  · intro now hfire
    obtain ⟨st, m, pm, pme, mx, mn, cur, L, iv⟩ := s
    simp only at hm hst h1 h2 h3 hfire ⊢
    subst hm
    rw [update_eq_heartbeat o now _ rfl]
    unfold Effect.heartbeat
    dsimp only
    rcases hst with h | h <;> subst h
    · rw [if_pos ⟨by omega, hfire⟩, if_pos rfl]
      by_cases hc : cur < mx
      · rw [if_pos hc]
        refine Or.inl ⟨rfl, hc, ?_, rfl⟩
        show inc8 cur = cur + 1
        unfold inc8
        omega
      · rw [if_neg hc]
        exact Or.inr (Or.inl ⟨rfl, by omega, rfl, rfl⟩)
    · rw [if_pos ⟨by omega, hfire⟩, if_neg (by omega)]
      by_cases hc : mn < cur
      · rw [if_pos hc]
        refine Or.inr (Or.inr (Or.inl ⟨rfl, hc, ?_, rfl⟩))
        show dec8 cur + 1 = cur
        unfold dec8
        omega
      · rw [if_neg hc]
        exact Or.inr (Or.inr (Or.inr ⟨rfl, by omega, rfl, rfl⟩))
  · intro now hle
    rw [update_eq_heartbeat o now s hm]
    unfold Effect.heartbeat
    rw [if_neg (by omega)]

/-- Witness for C4: the default heartbeat configuration after one elapsed
step stays within its brightness bounds. -/
theorem heartbeat_triangle_bounds_witness :
    (Effect.setModeHeartbeat (initialEffect 0)).minBrightness ≤
      (runUpdates oZero [6] (Effect.setModeHeartbeat (initialEffect 0))).currentBrightness ∧
    (runUpdates oZero [6] (Effect.setModeHeartbeat (initialEffect 0))).currentBrightness ≤
      (Effect.setModeHeartbeat (initialEffect 0)).maxBrightness :=
  (heartbeat_triangle_bounds (Effect.setModeHeartbeat (initialEffect 0)) oZero
    (by decide) (by decide) (by decide) (by decide) (by decide)).1 [6]

/-- Witness for C2: a fresh `Effect`, switched off, fires the callback with
state 1 on the first `on()`. -/
theorem callback_once_per_state_change_witness :
    (Effect.on false 7 oZero (Effect.off (initialEffect 0)).st).cb = [1] :=
  (callback_once_per_state_change (Effect.off (initialEffect 0)).st ⟨0⟩
    oZero oZero 7 9 (by decide) (by decide)).1
